import Mathlib

/-!
Verification of the NeuralForge persistent tokenizer worker
(src/models/nf_tokenizer_worker.py).

The worker loads a tokenizer once at startup, emits a startup signal, then
runs a command loop: it reads JSON lines from stdin and writes one JSON
response line per accepted input line. We embed the worker shallowly:

- JSON values are the inductive type `Json` (numbers as `Int`; the claims
  under study never depend on fractional numerics).
- The Python stdlib call `json.loads` is external library code; each input
  line is therefore modelled by its parse outcome `LineParse`: either
  `malformed` (a `json.JSONDecodeError` with a message) or `value v` for a
  successfully parsed JSON value `v` (which need not be an object).
- The tokenizer (`AutoTokenizer`) is an external capability: `Capability`
  carries `encode` and `decode` functions returning `Except String`, the
  error case standing for a raised exception with message `str(e)`.
- The command loop of lines 51-142 becomes `commandLoop`; the per-line body
  becomes `handleLine` / `handleRequest`.  The Python local `request_id`
  survives across loop iterations, so the loop state is `Option Json`
  (`none` = the name was never bound, mirroring the
  `if 'request_id' in locals()` test of line 138).
- The whole process (lines 37-145) becomes `runWorker`, returning the
  emitted output lines, the input lines left unread, and the exit code.
-/

namespace NeuralForge

/-- JSON values as produced by `json.loads`. Numbers are modelled as `Int`. -/
inductive Json where
  | null : Json
  | bool : Bool → Json
  | num : Int → Json
  | str : String → Json
  | arr : List Json → Json
  | obj : List (String × Json) → Json

/-- Python dict lookup for an object parsed by `json.loads`: with duplicate
keys the last occurrence wins, absent keys give `none` (Python `None` via
`dict.get`). -/
def jlookup (fs : List (String × Json)) (k : String) : Option Json :=
  fs.foldl (fun acc p => if p.1 = k then some p.2 else acc) none

/-- Python `request.get(k, d)`: the stored value when the key is present
(even when that value is `null`), the default `d` otherwise. -/
def jgetD (fs : List (String × Json)) (k : String) (d : Json) : Json :=
  (jlookup fs k).getD d

/-- The field `k` of a response object, `none` for non-objects. -/
def respField (j : Json) (k : String) : Option Json :=
  match j with
  | .obj fs => jlookup fs k
  | _ => none

/-- Python type names, as they appear in `AttributeError` messages. -/
def pyTypeName : Json → String
  | .null => "NoneType"
  | .bool _ => "bool"
  | .num _ => "int"
  | .str _ => "str"
  | .arr _ => "list"
  | .obj _ => "dict"

mutual
/-- Python `repr` of a JSON-decoded value (as used by `str` inside
containers). String escaping is not modelled beyond quoting. -/
def pyRepr : Json → String
  | .null => "None"
  | .bool true => "True"
  | .bool false => "False"
  | .num n => toString n
  | .str s => "\x27" ++ s ++ "\x27"
  | .arr xs => "[" ++ String.intercalate ", " (pyReprList xs) ++ "]"
  | .obj fs => "\x7b" ++ String.intercalate ", " (pyReprObj fs) ++ "\x7d"

/-- `pyRepr` mapped over a list of values. -/
def pyReprList : List Json → List String
  | [] => []
  | x :: xs => pyRepr x :: pyReprList xs

/-- `pyRepr` mapped over the fields of an object. -/
def pyReprObj : List (String × Json) → List String
  | [] => []
  | (k, v) :: xs => ("\x27" ++ k ++ "\x27: " ++ pyRepr v) :: pyReprObj xs
end

/-- Python `str` of a JSON-decoded value, as interpolated by an f-string:
a string interpolates as itself, everything else via `repr`. -/
def pyStr : Json → String
  | .str s => s
  | v => pyRepr v

/-- Python `str` of `request.get("command")`: `dict.get` with a missing key
yields `None`, which an f-string renders as the text `None`. -/
def pyStrOpt : Option Json → String
  | none => "None"
  | some v => pyStr v

/-- Python `command == lit` for a string literal `lit`: true exactly when
`command` is a string equal to `lit` (comparison across types is `False`,
and `None == lit` is `False`). -/
def isCmd (c : Option Json) (lit : String) : Bool :=
  match c with
  | some (.str t) => t = lit
  | _ => false

/-- The tokenizer capability (`AutoTokenizer`): external collaborator.
`encode` receives the raw JSON value of the `text` field and `decode` the
raw JSON value of the `tokens` field; `Except.error m` stands for a raised
exception whose `str(e)` is `m`. -/
structure Capability where
  encode : Json → Except String (List Int)
  decode : Json → Except String String

/-- Outcome of one input line under `json.loads(line.strip())`. -/
inductive LineParse where
  | malformed : String → LineParse
  | value : Json → LineParse

/-- Outcome of `AutoTokenizer.from_pretrained(MODEL_PATH)` at startup. -/
inductive LoadOutcome where
  | ok : LoadOutcome
  | fail : String → LoadOutcome

/-- The model identifier hard-coded in the worker. -/
def MODEL_NAME : String := "codet5p-220m"

/-- Startup signal on successful load (line 41). -/
def readySignal : Json :=
  .obj [("status", .str "ready"), ("model", .str MODEL_NAME)]

/-- Startup signal on failed load (line 46). -/
def loadErrorSignal (m : String) : Json :=
  .obj [("status", .str "error"), ("message", .str ("Tokenizer load failed: " ++ m))]

/-- TOKENIZE success response (lines 73-78). -/
def tokOk (rid : Json) (token_ids : List Int) : Json :=
  .obj [("id", rid), ("status", .str "ok"),
        ("result", .arr (token_ids.map Json.num)),
        ("length", .num token_ids.length)]

/-- DETOKENIZE success response (lines 89-94). -/
def detokOk (rid : Json) (text : String) : Json :=
  .obj [("id", rid), ("status", .str "ok"),
        ("result", .str text), ("length", .num text.length)]

/-- PING response (lines 99-104). -/
def pingOk (rid : Json) : Json :=
  .obj [("id", rid), ("status", .str "ok"),
        ("result", .str "pong"), ("model", .str MODEL_NAME)]

/-- SHUTDOWN response (lines 109-113). -/
def shutdownOk (rid : Json) : Json :=
  .obj [("id", rid), ("status", .str "ok"), ("result", .str "shutting down")]

/-- Error response shape (lines 119-123, 128-132, 137-141). -/
def errResp (rid : Json) (msg : String) : Json :=
  .obj [("id", rid), ("status", .str "error"), ("message", .str msg)]

/-- Lines 62-124: dispatch of one successfully parsed JSON object.
Returns the response, the value bound to `request_id`, and whether the
loop breaks (SHUTDOWN). -/
def handleRequest (cap : Capability) (fields : List (String × Json)) :
    Json × Json × Bool :=
  let command := jlookup fields "command"
  let request_id := jgetD fields "id" (.str "unknown")
  if isCmd command "TOKENIZE" then
    match cap.encode (jgetD fields "text" (.str "")) with
    | .ok token_ids => (tokOk request_id token_ids, request_id, false)
    | .error e => (errResp request_id ("Processing error: " ++ e), request_id, false)
  else if isCmd command "DETOKENIZE" then
    match cap.decode (jgetD fields "tokens" (.arr [])) with
    | .ok text => (detokOk request_id text, request_id, false)
    | .error e => (errResp request_id ("Processing error: " ++ e), request_id, false)
  else if isCmd command "PING" then
    (pingOk request_id, request_id, false)
  else if isCmd command "SHUTDOWN" then
    (shutdownOk request_id, request_id, true)
  else
    (errResp request_id ("Unknown command: " ++ pyStrOpt command), request_id, false)

/-- One iteration of the command loop body (lines 52-142) on one input
line, given the current binding of the Python local `request_id`
(`none` when it was never assigned).  Returns the emitted response, the
binding of `request_id` afterwards, and whether the loop breaks.

A line that parses to a non-object raises `AttributeError` at
`request.get("command")` before `request_id` is reassigned; the generic
handler (lines 135-142) then reuses the stale binding, defaulting to
the string `unknown` only when no request was ever parsed. -/
def handleLine (cap : Capability) (lastId : Option Json) :
    LineParse → Json × Option Json × Bool
  | .malformed m =>
      (errResp (.str "unknown") ("Invalid JSON: " ++ m), lastId, false)
  | .value (.obj fields) =>
      let r := handleRequest cap fields
      (r.1, some r.2.1, r.2.2)
  | .value v =>
      (errResp (lastId.getD (.str "unknown"))
         ("Processing error: \x27" ++ pyTypeName v ++ "\x27 object has no attribute \x27get\x27"),
       lastId, false)

/-- The command loop (lines 51-142): consumes input lines until the list
is exhausted (EOF) or a SHUTDOWN breaks the loop.  Returns the emitted
response lines in order and the input lines left unread. -/
def commandLoop (cap : Capability) (lastId : Option Json) :
    List LineParse → List Json × List LineParse
  | [] => ([], [])
  | l :: rest =>
      let r := handleLine cap lastId l
      if r.2.2 then ([r.1], rest)
      else
        let next := commandLoop cap r.2.1 rest
        (r.1 :: next.1, next.2)

/-- The whole worker process (lines 37-145): startup handshake, then the
command loop.  Returns (output lines, unread input lines, exit code). -/
def runWorker (cap : Capability) (load : LoadOutcome) (input : List LineParse) :
    List Json × List LineParse × Nat :=
  match load with
  | .fail m => ([loadErrorSignal m], input, 1)
  | .ok =>
      let r := commandLoop cap .none input
      (readySignal :: r.1, r.2, 0)

end NeuralForge

namespace NeuralForge

/-- Whether a JSON value is an object (a Python dict after `json.loads`). -/
def Json.isObj : Json → Bool
  | .obj _ => true
  | _ => false

/-- A concrete tokenizer capability whose calls always succeed, used to
instantiate universally quantified statements at a checkable input. -/
def stubCap : Capability :=
  ⟨fun _ => .ok [101, 102], fun _ => .ok "hi"⟩

/-- A concrete tokenizer capability whose calls always raise, modelling a
per-request capability failure. -/
def failCap : Capability :=
  ⟨fun _ => .error "boom", fun _ => .error "boom"⟩

/-- The value bound to `request_id` by `handleRequest` is always the
`id` field of the request, defaulting to the string `unknown`. -/
theorem handleRequest_rid (cap : Capability) (fields : List (String × Json)) :
    (handleRequest cap fields).2.1 = jgetD fields "id" (.str "unknown") := by
  simp only [handleRequest]
  repeat' split
  all_goals rfl

/-- Every response built by `handleRequest` carries an `id` field equal to
the `id` field of the request, defaulting to the string `unknown`. -/
theorem respField_handleRequest_id (cap : Capability) (fields : List (String × Json)) :
    respField (handleRequest cap fields).1 "id"
      = some (jgetD fields "id" (.str "unknown")) := by
  simp only [handleRequest]
  repeat' split
  all_goals rfl

/-- The command loop emits exactly one response per consumed input line:
emitted responses plus unread lines account for the whole input. -/
theorem commandLoop_length (cap : Capability) (lastId : Option Json)
    (input : List LineParse) :
    (commandLoop cap lastId input).1.length
      + (commandLoop cap lastId input).2.length = input.length := by
  induction input generalizing lastId with
  | nil => simp [commandLoop]
  | cons l rest ih =>
      simp only [commandLoop]
      split
      · simp [Nat.add_comm]
      · have h := ih (handleLine cap lastId l).2.1
        simp only [List.length_cons]
        omega

/-- When the per-line handler does not signal a break, the loop emits that
response and recurses on the rest of the input with the updated state. -/
theorem commandLoop_cons_continue (cap : Capability) (lastId : Option Json)
    (l : LineParse) (rest : List LineParse)
    (h : (handleLine cap lastId l).2.2 = false) :
    commandLoop cap lastId (l :: rest)
      = ((handleLine cap lastId l).1
           :: (commandLoop cap (handleLine cap lastId l).2.1 rest).1,
         (commandLoop cap (handleLine cap lastId l).2.1 rest).2) := by
  simp only [commandLoop, h]
  simp

/-- Claim C1: for every input line that parses as a JSON object and is
processed in the command loop, the emitted response carries an id field
equal to the request id value when one was present and the string unknown
when the id key was absent; this holds for every command branch
(TOKENIZE, DETOKENIZE, PING, SHUTDOWN, unknown command) and for the
per-request error responses. -/
theorem response_id_matches_request_id (cap : Capability) (lastId : Option Json)
    (fields : List (String × Json)) :
    respField (handleLine cap lastId (.value (.obj fields))).1 "id"
      = some (jgetD fields "id" (.str "unknown")) := by
  simpa [handleLine] using respField_handleRequest_id cap fields

/-- Claim C2: in every run of the worker, exactly one startup signal line
(a JSON object with a status field) is written before any response line,
and exactly one response line is emitted per accepted input line,
malformed lines included: emitted responses plus unread lines account for
the whole input. -/
theorem one_startup_then_one_response_per_line (cap : Capability)
    (input : List LineParse) (m : String) :
    (runWorker cap .ok input).1
        = readySignal :: (commandLoop cap none input).1
    ∧ (commandLoop cap none input).1.length
        + (runWorker cap .ok input).2.1.length = input.length
    ∧ respField readySignal "status" = some (.str "ready")
    ∧ (runWorker cap (.fail m) input).1 = [loadErrorSignal m]
    ∧ respField (loadErrorSignal m) "status" = some (.str "error") := by
  refine ⟨rfl, ?_, rfl, rfl, rfl⟩
  have h := commandLoop_length cap none input
  simpa [runWorker] using h

/-- Claim C3: at startup, a successful load emits the single ready line
with the model identifier and exit code 0 applies to the rest of the run,
while a failed load emits the single error line describing the failure,
reads no input at all, and the process exits with code 1. -/
theorem startup_handshake_once (cap : Capability) (input : List LineParse)
    (m : String) :
    runWorker cap (.fail m) input = ([loadErrorSignal m], input, 1)
    ∧ loadErrorSignal m
        = .obj [("status", .str "error"),
                ("message", .str ("Tokenizer load failed: " ++ m))]
    ∧ (runWorker cap .ok input).1.head? = some readySignal
    ∧ readySignal = .obj [("status", .str "ready"), ("model", .str "codet5p-220m")]
    ∧ (runWorker cap .ok input).2.2 = 0 := by
  exact ⟨rfl, rfl, rfl, rfl, rfl⟩

/-- Claim C4: a line that fails to decode as JSON yields exactly one error
response with id unknown and an Invalid JSON message, and the loop
continues with unchanged state; in particular a subsequent valid PING
request is answered normally. -/
theorem malformed_json_resilience (cap : Capability) (lastId : Option Json)
    (m : String) (rest : List LineParse) (rid : Json) :
    commandLoop cap lastId (.malformed m :: rest)
      = (errResp (.str "unknown") ("Invalid JSON: " ++ m)
           :: (commandLoop cap lastId rest).1,
         (commandLoop cap lastId rest).2)
    ∧ commandLoop cap lastId
        [.malformed m, .value (.obj [("command", .str "PING"), ("id", rid)])]
      = ([errResp (.str "unknown") ("Invalid JSON: " ++ m), pingOk rid], []) := by
  constructor
  · simpa [handleLine] using
      commandLoop_cons_continue cap lastId (.malformed m) rest rfl
  · rfl

/-- Claim C5: when the capability call of a TOKENIZE or DETOKENIZE request
raises, the failure becomes an error response whose id equals that
request's id (default unknown) with a Processing error message, and the
loop proceeds to the next line instead of terminating. -/
theorem capability_failure_nonfatal (cap : Capability) (lastId : Option Json)
    (fields : List (String × Json)) (e : String) (rest : List LineParse) :
    (jlookup fields "command" = some (.str "TOKENIZE") →
      cap.encode (jgetD fields "text" (.str "")) = .error e →
      commandLoop cap lastId (.value (.obj fields) :: rest)
        = (errResp (jgetD fields "id" (.str "unknown")) ("Processing error: " ++ e)
             :: (commandLoop cap (some (jgetD fields "id" (.str "unknown"))) rest).1,
           (commandLoop cap (some (jgetD fields "id" (.str "unknown"))) rest).2))
    ∧ (jlookup fields "command" = some (.str "DETOKENIZE") →
      cap.decode (jgetD fields "tokens" (.arr [])) = .error e →
      commandLoop cap lastId (.value (.obj fields) :: rest)
        = (errResp (jgetD fields "id" (.str "unknown")) ("Processing error: " ++ e)
             :: (commandLoop cap (some (jgetD fields "id" (.str "unknown"))) rest).1,
           (commandLoop cap (some (jgetD fields "id" (.str "unknown"))) rest).2)) := by
  constructor
  · intro hcmd henc
    have hl : handleLine cap lastId (.value (.obj fields))
        = (errResp (jgetD fields "id" (.str "unknown")) ("Processing error: " ++ e),
           some (jgetD fields "id" (.str "unknown")), false) := by
      simp [handleLine, handleRequest, hcmd, henc, isCmd]
    rw [commandLoop_cons_continue cap lastId _ rest (by rw [hl]), hl]
  · intro hcmd hdec
    have hl : handleLine cap lastId (.value (.obj fields))
        = (errResp (jgetD fields "id" (.str "unknown")) ("Processing error: " ++ e),
           some (jgetD fields "id" (.str "unknown")), false) := by
      simp [handleLine, handleRequest, hcmd, hdec, isCmd]
    rw [commandLoop_cons_continue cap lastId _ rest (by rw [hl]), hl]

/-- Witness for claim C5: a failing capability turns a concrete TOKENIZE
request and a concrete DETOKENIZE request into error responses carrying
the requests own ids, and the loop goes on to answer a following PING. -/
theorem capability_failure_nonfatal_witness :
    commandLoop failCap none
        [.value (.obj [("command", .str "TOKENIZE"), ("id", .str "9")]),
         .value (.obj [("command", .str "PING"), ("id", .str "10")])]
      = ([errResp (.str "9") "Processing error: boom", pingOk (.str "10")], [])
    ∧ commandLoop failCap none
        [.value (.obj [("command", .str "DETOKENIZE"), ("id", .str "11")])]
      = ([errResp (.str "11") "Processing error: boom"], []) := by
  constructor
  · have h := (capability_failure_nonfatal failCap none
        [("command", .str "TOKENIZE"), ("id", .str "9")] "boom"
        [.value (.obj [("command", .str "PING"), ("id", .str "10")])]).1 rfl rfl
    simpa [jgetD, jlookup, commandLoop, handleLine, handleRequest, isCmd] using h
  · have h := (capability_failure_nonfatal failCap none
        [("command", .str "DETOKENIZE"), ("id", .str "11")] "boom" []).2 rfl rfl
    simpa [jgetD, jlookup, commandLoop] using h

/-- Claim C6: a SHUTDOWN request with id x makes the worker emit exactly
the object with id x, status ok and result shutting down, stop reading
input (the rest of the stream is returned unread), and the run has exit
code 0. -/
theorem shutdown_terminates (cap : Capability) (lastId : Option Json)
    (fields : List (String × Json)) (x : Json) (rest : List LineParse)
    (hcmd : jlookup fields "command" = some (.str "SHUTDOWN"))
    (hid : jlookup fields "id" = some x) :
    commandLoop cap lastId (.value (.obj fields) :: rest)
      = ([.obj [("id", x), ("status", .str "ok"), ("result", .str "shutting down")]],
         rest)
    ∧ (runWorker cap .ok (.value (.obj fields) :: rest)).2.2 = 0 := by
  have hl : handleLine cap lastId (.value (.obj fields))
      = (shutdownOk x, some x, true) := by
    simp [handleLine, handleRequest, hcmd, isCmd, jgetD, hid]
  refine ⟨?_, rfl⟩
  simp only [commandLoop, hl]
  simp [shutdownOk]

/-- Witness for claim C6: the concrete SHUTDOWN request with id x produces
the single shutdown response and leaves the following line unread. -/
theorem shutdown_terminates_witness :
    commandLoop stubCap none
        [.value (.obj [("command", .str "SHUTDOWN"), ("id", .str "x")]),
         .malformed "junk"]
      = ([.obj [("id", .str "x"), ("status", .str "ok"),
                ("result", .str "shutting down")]],
         [.malformed "junk"])
    ∧ (runWorker stubCap .ok
        [.value (.obj [("command", .str "SHUTDOWN"), ("id", .str "x")]),
         .malformed "junk"]).2.2 = 0 :=
  shutdown_terminates stubCap none
    [("command", .str "SHUTDOWN"), ("id", .str "x")] (.str "x")
    [.malformed "junk"] rfl rfl

/-- Claim C7: the worker exits with code 0 exactly on graceful termination
(load succeeded; the loop ends by SHUTDOWN or by end of stream, the latter
silently) and with code 1 exactly on startup failure; no other exit code
occurs for any load outcome. -/
theorem exit_code_spec (cap : Capability) (input : List LineParse)
    (lastId : Option Json) (m : String) :
    (runWorker cap .ok input).2.2 = 0
    ∧ (runWorker cap (.fail m) input).2.2 = 1
    ∧ (∀ load : LoadOutcome, (runWorker cap load input).2.2 = 0
        ∨ (runWorker cap load input).2.2 = 1)
    ∧ commandLoop cap lastId [] = ([], []) := by
  refine ⟨rfl, rfl, ?_, rfl⟩
  intro load
  cases load with
  | ok => exact Or.inl rfl
  | fail m2 => exact Or.inr rfl

/-- Claim C8: a TOKENIZE request invokes encode on the text field (absent
text defaults to the empty string, visible in the hypothesis) and emits
id, status ok, result the returned token id sequence, and length the
number of token ids, which always equals the element count of result. -/
theorem tokenize_response_shape (cap : Capability) (lastId : Option Json)
    (fields : List (String × Json)) (token_ids : List Int)
    (hcmd : jlookup fields "command" = some (.str "TOKENIZE"))
    (henc : cap.encode (jgetD fields "text" (.str "")) = .ok token_ids) :
    handleLine cap lastId (.value (.obj fields))
      = (.obj [("id", jgetD fields "id" (.str "unknown")), ("status", .str "ok"),
               ("result", .arr (token_ids.map Json.num)),
               ("length", .num token_ids.length)],
         some (jgetD fields "id" (.str "unknown")), false)
    ∧ respField (handleLine cap lastId (.value (.obj fields))).1 "length"
        = some (.num token_ids.length)
    ∧ (token_ids.map Json.num).length = token_ids.length := by
  have hl : handleLine cap lastId (.value (.obj fields))
      = (tokOk (jgetD fields "id" (.str "unknown")) token_ids,
         some (jgetD fields "id" (.str "unknown")), false) := by
    simp [handleLine, handleRequest, hcmd, henc, isCmd]
  refine ⟨by rw [hl]; rfl, by rw [hl]; rfl, by simp⟩

/-- Witness for claim C8: a concrete TOKENIZE request under a capability
returning a two-token encoding yields the ok response with result the two
token ids and length 2. -/
theorem tokenize_response_shape_witness :
    handleLine stubCap none
        (.value (.obj [("command", .str "TOKENIZE"), ("id", .str "1"),
                       ("text", .str "def hello():")]))
      = (.obj [("id", .str "1"), ("status", .str "ok"),
               ("result", .arr [.num 101, .num 102]), ("length", .num 2)],
         some (.str "1"), false) := by
  have h := (tokenize_response_shape stubCap none
      [("command", .str "TOKENIZE"), ("id", .str "1"),
       ("text", .str "def hello():")] [101, 102] rfl rfl).1
  simpa [jgetD, jlookup] using h

/-- Claim C9: a request whose command field is present but none of
TOKENIZE, DETOKENIZE, PING, SHUTDOWN triggers no capability call (the
handler result does not depend on the capability) and emits an error
response with message Unknown command followed by the command, and the
loop continues with the next request answered normally; for a string
command the message is literally the concatenation with that string. -/
theorem unknown_command_keeps_ready (cap cap2 : Capability) (lastId : Option Json)
    (fields : List (String × Json)) (c : Json) (rest : List LineParse)
    (hcmd : jlookup fields "command" = some c)
    (h1 : isCmd (some c) "TOKENIZE" = false)
    (h2 : isCmd (some c) "DETOKENIZE" = false)
    (h3 : isCmd (some c) "PING" = false)
    (h4 : isCmd (some c) "SHUTDOWN" = false) :
    commandLoop cap lastId (.value (.obj fields) :: rest)
      = (errResp (jgetD fields "id" (.str "unknown")) ("Unknown command: " ++ pyStr c)
           :: (commandLoop cap (some (jgetD fields "id" (.str "unknown"))) rest).1,
         (commandLoop cap (some (jgetD fields "id" (.str "unknown"))) rest).2)
    ∧ handleLine cap lastId (.value (.obj fields))
        = handleLine cap2 lastId (.value (.obj fields))
    ∧ (∀ s : String, pyStr (.str s) = s) := by
  have hl : ∀ c2 : Capability, handleLine c2 lastId (.value (.obj fields))
      = (errResp (jgetD fields "id" (.str "unknown")) ("Unknown command: " ++ pyStr c),
         some (jgetD fields "id" (.str "unknown")), false) := by
    intro c2
    simp [handleLine, handleRequest, hcmd, h1, h2, h3, h4, pyStrOpt]
  refine ⟨?_, by rw [hl cap, hl cap2], fun s => rfl⟩
  rw [commandLoop_cons_continue cap lastId _ rest (by rw [hl cap]), hl cap]

/-- Witness for claim C9: the request with command FOO and id 3 yields the
Unknown command error and the following PING is answered normally. -/
theorem unknown_command_keeps_ready_witness :
    commandLoop stubCap none
        [.value (.obj [("command", .str "FOO"), ("id", .str "3")]),
         .value (.obj [("command", .str "PING"), ("id", .str "4")])]
      = ([errResp (.str "3") "Unknown command: FOO", pingOk (.str "4")], []) := by
  have h := (unknown_command_keeps_ready stubCap failCap none
      [("command", .str "FOO"), ("id", .str "3")] (.str "FOO")
      [.value (.obj [("command", .str "PING"), ("id", .str "4")])]
      rfl rfl rfl rfl rfl).1
  simpa [jgetD, jlookup, pyStr, commandLoop, handleLine, handleRequest, isCmd,
    pingOk] using h

/-- Counterexample to claim C10 as stated: in the run whose input is the
object line with command PING and no id followed by the non-object line 5,
the first line parses as a JSON object, yet the error response for the
second line carries id unknown — contradicting the claim that the id is
not unknown whenever at least one earlier line parsed as an object and
that the id is unknown only when no earlier request was ever parsed. -/
theorem stale_id_claim_counterexample :
    (Json.obj [("command", Json.str "PING")]).isObj = true
    ∧ (runWorker stubCap .ok
        [.value (.obj [("command", .str "PING")]), .value (.num 5)]).1
      = [readySignal, pingOk (.str "unknown"),
         errResp (.str "unknown")
           "Processing error: \x27int\x27 object has no attribute \x27get\x27"] :=
  ⟨rfl, rfl⟩

/-- Claim C10 as amended: a line parsing to a non-object JSON value fails
before its own id can be read, and the emitted error response reuses the
request id recorded for the most recent previously parsed object request
— that request's id field, or the string unknown when that request had no
id — and the string unknown when no request was ever parsed; the
recorded id is updated only by object lines (to their id value, default
unknown) and is left unchanged by malformed lines and non-object lines.
A stale correlation id from a prior request can thus be echoed on an
unrelated failing line. -/
theorem stale_request_id_amended (cap : Capability) (lastId : Option Json)
    (v : Json) (m : String) (fields : List (String × Json))
    (hv : v.isObj = false) :
    handleLine cap lastId (.value v)
      = (errResp (lastId.getD (.str "unknown"))
           ("Processing error: \x27" ++ pyTypeName v
              ++ "\x27 object has no attribute \x27get\x27"),
         lastId, false)
    ∧ (handleLine cap lastId (.value (.obj fields))).2.1
        = some (jgetD fields "id" (.str "unknown"))
    ∧ (handleLine cap lastId (.malformed m)).2.1 = lastId := by
  refine ⟨?_, ?_, rfl⟩
  · cases v <;> first | rfl | simp [Json.isObj] at hv
  · simp [handleLine, handleRequest_rid]

/-- Witness for the amended claim C10: with the recorded id a, the
non-object line 5 is answered with error id a and the state kept, an
object line with id b sets the recorded id to b, and a malformed line
keeps the recorded id a. -/
theorem stale_request_id_amended_witness :
    handleLine stubCap (some (.str "a")) (.value (.num 5))
      = (errResp (.str "a")
           "Processing error: \x27int\x27 object has no attribute \x27get\x27",
         some (.str "a"), false)
    ∧ (handleLine stubCap (some (.str "a"))
        (.value (.obj [("id", .str "b")]))).2.1 = some (.str "b")
    ∧ (handleLine stubCap (some (.str "a")) (.malformed "x")).2.1
        = some (.str "a") := by
  have h := stale_request_id_amended stubCap (some (.str "a")) (.num 5) "x"
    [("id", .str "b")] rfl
  simpa [jgetD, jlookup, pyTypeName] using h

end NeuralForge
